import Mathlib

/-!
Shallow embedding of the edit-session core of the create-image app
(src/types.ts and src/App.tsx).

The session state is the five React state variables of the `App` component
(`originalImage`, `prompt`, `status`, `resultImage`, `errorMsg`); the
handlers `handleFileSelect`, `handleGenerate` and `handleReset` are embedded
as state transformers.  `handleGenerate` suspends at the client call, so it
is split into its synchronous prefix (`generateStart`, the guard and the
transition to LOADING) and the continuation that runs when the promise
settles (`generateComplete`); the continuation is applied to whatever state
is current at that moment, exactly as the `await`/`catch` code does.

The browser object-URL API is modelled as an effect ledger: every
`URL.createObjectURL` call allocates a fresh numeric handle, recorded in
`allocatedUrls`; a `URL.revokeObjectURL` call would record its argument in
`revokedUrls` (the source never performs such a call, so no operation here
touches that field).

JavaScript truthiness of the optional strings involved (`undefined` and the
empty string are falsy) is made explicit by `jsTruthy` and `jsOr`, and the
JS `String.prototype.trim` emptiness test by `strTrim` over the character
list, since only whitespace-trimming-to-empty is observable in the source.
-/

namespace CreateImage

/-- `ProcessingState` enum from src/types.ts. -/
inductive ProcessingState where
  | IDLE
  | LOADING
  | SUCCESS
  | ERROR
  deriving DecidableEq, Repr

/-- `ImageData` from src/types.ts: base64 payload, MIME type, and the display
url; the url is an opaque object-URL handle, modelled as the numeric id
under which it was allocated. -/
structure ImageData where
  base64 : String
  mimeType : String
  url : Nat
  deriving DecidableEq, Repr

/-- `GeneratedResult` from src/types.ts: both fields optional. -/
structure GeneratedResult where
  imageUrl : Option String := none
  text : Option String := none
  deriving DecidableEq, Repr

/-- What the `await editImageWithGemini(...)` expression can do for the
caller: resolve with a `GeneratedResult`, or throw an error whose `.message`
may be absent. -/
inductive ClientResponse where
  | resolved (r : GeneratedResult)
  | thrown (message : Option String)
  deriving DecidableEq, Repr

/-- The five React state variables of the `App` component
(src/App.tsx lines 41-45). -/
structure SessionState where
  originalImage : Option ImageData
  prompt : String
  status : ProcessingState
  resultImage : Option String
  errorMsg : Option String
  deriving DecidableEq, Repr

/-- The component state plus the object-URL effect ledger. -/
structure AppModel where
  session : SessionState
  allocatedUrls : List Nat
  revokedUrls : List Nat
  nextUrl : Nat
  deriving DecidableEq, Repr

/-- JS truthiness of an optional string: `undefined`/`null` and `""` are
falsy. -/
def jsTruthy : Option String → Bool
  | none => false
  | some s => s != ""

/-- JS `a || b` where `a` is an optional string and `b` a string fallback:
yields `b` when `a` is absent or empty. -/
def jsOr (a : Option String) (b : String) : String :=
  match a with
  | none => b
  | some s => if s = "" then b else s

/-- JS `String.prototype.trim`: drop leading and trailing whitespace. -/
def strTrim (s : String) : String :=
  String.mk (((s.data.dropWhile Char.isWhitespace).reverse.dropWhile Char.isWhitespace).reverse)

/-- JS `String.prototype.startsWith`. -/
def strStartsWith (s pre : String) : Bool :=
  pre.data.isPrefixOf s.data

/-- A raw file at the file-acquisition boundary: its declared content kind
(`file.type`) and the data URL that `FileReader.readAsDataURL` produces for
its bytes. -/
structure RawFile where
  type : String
  dataUrl : String
  deriving DecidableEq, Repr

/-- The initial component state (src/App.tsx lines 41-45). -/
def initialSession : SessionState :=
  { originalImage := none
    prompt := ""
    status := ProcessingState.IDLE
    resultImage := none
    errorMsg := none }

/-- The initial model: initial state, no object URLs allocated or revoked. -/
def initialModel : AppModel :=
  { session := initialSession
    allocatedUrls := []
    revokedUrls := []
    nextUrl := 0 }

/-- `handleFileSelect` (src/App.tsx lines 49-72), with the selected file
present and the reader load succeeding.  A non-image declared type sets the
error message and returns early; otherwise a fresh object URL is allocated
and the state is updated from the reader result. -/
def handleFileSelect (file : RawFile) (m : AppModel) : AppModel :=
  if strStartsWith file.type "image/" then
    { m with
      session :=
        { m.session with
          originalImage := some
            { base64 := file.dataUrl
              mimeType := file.type
              url := m.nextUrl }
          resultImage := none
          status := ProcessingState.IDLE
          errorMsg := none }
      allocatedUrls := m.nextUrl :: m.allocatedUrls
      nextUrl := m.nextUrl + 1 }
  else
    { m with
      session :=
        { m.session with errorMsg := some "Please select a valid image file." } }

/-- The synchronous prefix of `handleGenerate` (src/App.tsx lines 74-80):
the guard `if (!originalImage || !prompt.trim()) return;` and, when it
passes, the transition to LOADING with error and result cleared.  The
boolean records whether the client call is initiated. -/
def generateStart (s : SessionState) : SessionState × Bool :=
  if s.originalImage = none ∨ strTrim s.prompt = "" then
    (s, false)
  else
    ({ s with
        status := ProcessingState.LOADING
        errorMsg := none
        resultImage := none },
      true)

/-- The continuation of `handleGenerate` (src/App.tsx lines 81-94), run when
the client promise settles, against whatever state is current then.  A
truthy `imageUrl` stores the result and moves to SUCCESS; otherwise the
error message becomes `result.text` with a fallback and the state moves to
ERROR; a thrown fault stores `error.message` with a fallback and moves to
ERROR. -/
def generateComplete (resp : ClientResponse) (s : SessionState) : SessionState :=
  match resp with
  | ClientResponse.resolved r =>
      if jsTruthy r.imageUrl then
        { s with
            resultImage := r.imageUrl
            status := ProcessingState.SUCCESS }
      else
        { s with
            errorMsg := some (jsOr r.text "The model responded, but did not generate an image.")
            status := ProcessingState.ERROR }
  | ClientResponse.thrown msg =>
      { s with
          errorMsg := some (jsOr msg "An unexpected error occurred.")
          status := ProcessingState.ERROR }

/-- `handleReset` (src/App.tsx lines 97-106): every state variable back to
its initial value. -/
def handleReset (s : SessionState) : SessionState :=
  { originalImage := none
    prompt := ""
    status := ProcessingState.IDLE
    resultImage := none
    errorMsg := none }

/-- `handleReset` lifted to the model: the source contains no
`URL.revokeObjectURL` call, so the ledger is untouched. -/
def handleResetM (m : AppModel) : AppModel :=
  { m with session := handleReset m.session }

/-- The discriminated `EditOutcome` of the spec (section 3): exactly one of
an image artifact, descriptive text, or a failure reason. -/
inductive EditOutcome where
  | ImageProduced (encodedImage : String)
  | TextOnly (message : String)
  | Failure (reason : String)
  deriving DecidableEq, Repr

/-- Modelled from the spec: `EditClient.submit` classification — the
`geminiService` module is not under src/.  Per spec section 4.3 the client
never throws; every outcome resolves into the result record App.tsx
consumes: an image artifact populates `imageUrl` as a displayable blob,
descriptive text and failure reasons travel in `text`. -/
def clientRespond : EditOutcome → ClientResponse
  | EditOutcome.ImageProduced u => ClientResponse.resolved { imageUrl := some u }
  | EditOutcome.TextOnly t => ClientResponse.resolved { text := some t }
  | EditOutcome.Failure r => ClientResponse.resolved { text := some r }

/-- The payload a client outcome carries is non-empty: an `ImageProduced`
blob is displayable (a data URL, never the empty string) and text or a
reason is only classified as present when there is some (spec section 4.3). -/
def nonemptyPayload : EditOutcome → Bool
  | EditOutcome.ImageProduced u => u != ""
  | EditOutcome.TextOnly t => t != ""
  | EditOutcome.Failure r => r != ""

/-- The `disabled` condition of the generate button
(src/App.tsx line 208): `status === ProcessingState.LOADING || !prompt.trim()`. -/
def generateButtonDisabled (s : SessionState) : Bool :=
  decide (s.status = ProcessingState.LOADING) || decide (strTrim s.prompt = "")

/-- A concrete image as produced by acquiring a small PNG. -/
def imgA : ImageData :=
  { base64 := "data:image/png;base64,QUJD"
    mimeType := "image/png"
    url := 0 }

/-- A session holding an image and a non-whitespace instruction, ready to
generate. -/
def readySession : SessionState :=
  { originalImage := some imgA
    prompt := "make it red"
    status := ProcessingState.IDLE
    resultImage := none
    errorMsg := none }

/-- A session with an in-flight request: LOADING, image and instruction
present. -/
def loadingSession : SessionState :=
  { originalImage := some imgA
    prompt := "make it red"
    status := ProcessingState.LOADING
    resultImage := none
    errorMsg := none }

/-- A concrete PNG file. -/
def fileA : RawFile :=
  { type := "image/png", dataUrl := "data:image/png;base64,QUJD" }

/-- A second concrete PNG file, superseding the first. -/
def fileB : RawFile :=
  { type := "image/png", dataUrl := "data:image/png;base64,REVG" }

/-- A concrete non-image file. -/
def textFile : RawFile :=
  { type := "text/plain", dataUrl := "data:text/plain;base64,aGk=" }

/-- A concrete displayable result returned by the model. -/
def resUrl : String := "data:image/png;base64,RUZH"

/-- C7: `handleReset` yields, from every prior state, the Idle state with no
image, no result, no error message, and cleared instruction text. -/
theorem reset_yields_pristine_idle (s : SessionState) :
    handleReset s =
      { originalImage := none
        prompt := ""
        status := ProcessingState.IDLE
        resultImage := none
        errorMsg := none } := by
  rfl

/-- C9: `handleReset` is idempotent — two invocations in a row leave the
session exactly as one invocation does. -/
theorem reset_idempotent (s : SessionState) :
    handleReset (handleReset s) = handleReset s := by
  rfl

/-- C5: with no image present or a whitespace-only instruction, `generateStart`
leaves the state untouched and initiates no client call. -/
theorem generate_guard_noop (s : SessionState)
    (h : s.originalImage = none ∨ strTrim s.prompt = "") :
    generateStart s = (s, false) := by
  unfold generateStart
  rw [if_pos h]

/-- Witness for C5: the initial session has no image, and `generateStart`
there is a no-op with no call made. -/
theorem generate_guard_noop_witness :
    (initialSession.originalImage = none ∨ strTrim initialSession.prompt = "") ∧
      generateStart initialSession = (initialSession, false) :=
  ⟨Or.inl rfl, generate_guard_noop initialSession (Or.inl rfl)⟩

/-- C6: a fault thrown by the client call itself always lands in ERROR with
the fault message stored, and the stored message falls back to the generic
text exactly when the fault carries no extractable message (absent or
empty). -/
theorem fault_lands_in_error (msg : Option String) (s : SessionState) :
    (generateComplete (ClientResponse.thrown msg) s).status = ProcessingState.ERROR ∧
      (generateComplete (ClientResponse.thrown msg) s).errorMsg =
        some (jsOr msg "An unexpected error occurred.") ∧
      jsOr (none : Option String) "An unexpected error occurred." =
        "An unexpected error occurred." ∧
      jsOr (some "") "An unexpected error occurred." =
        "An unexpected error occurred." := by
  refine ⟨rfl, rfl, rfl, rfl⟩

/-- C1: from a session holding an image and a non-whitespace instruction,
generate moves to LOADING with result and error cleared and the client call
made; on completion the state is never LOADING, it is SUCCESS exactly for an
`ImageProduced` outcome (whose image is stored as the result), and a
`TextOnly` or `Failure` outcome lands in ERROR with the given message
stored. -/
theorem generate_cycle (s : SessionState) (img : ImageData) (o : EditOutcome)
    (h1 : s.originalImage = some img) (h2 : strTrim s.prompt ≠ "")
    (h3 : nonemptyPayload o = true) :
    (generateStart s).2 = true ∧
      (generateStart s).1.status = ProcessingState.LOADING ∧
      (generateStart s).1.resultImage = none ∧
      (generateStart s).1.errorMsg = none ∧
      (generateComplete (clientRespond o) (generateStart s).1).status ≠
        ProcessingState.LOADING ∧
      ((generateComplete (clientRespond o) (generateStart s).1).status =
          ProcessingState.SUCCESS ↔ ∃ u, o = EditOutcome.ImageProduced u) ∧
      generateComplete (clientRespond o) (generateStart s).1 =
        (match o with
          | EditOutcome.ImageProduced u =>
              { (generateStart s).1 with
                  resultImage := some u
                  status := ProcessingState.SUCCESS }
          | EditOutcome.TextOnly t =>
              { (generateStart s).1 with
                  errorMsg := some t
                  status := ProcessingState.ERROR }
          | EditOutcome.Failure r =>
              { (generateStart s).1 with
                  errorMsg := some r
                  status := ProcessingState.ERROR }) := by
  have hcond : ¬(s.originalImage = none ∨ strTrim s.prompt = "") := by
    rintro (hc | hc)
    · rw [h1] at hc
      exact Option.noConfusion hc
    · exact h2 hc
  have hgs : generateStart s =
      ({ s with
          status := ProcessingState.LOADING
          errorMsg := none
          resultImage := none }, true) := by
    unfold generateStart
    rw [if_neg hcond]
  rw [hgs]
  cases o with
  | ImageProduced u =>
      simp only [nonemptyPayload, bne_iff_ne, ne_eq, decide_eq_true_eq] at h3
      simp [generateComplete, clientRespond, jsTruthy, h3]
  | TextOnly t =>
      simp only [nonemptyPayload, bne_iff_ne, ne_eq, decide_eq_true_eq] at h3
      simp [generateComplete, clientRespond, jsTruthy, jsOr, h3]
  | Failure r =>
      simp only [nonemptyPayload, bne_iff_ne, ne_eq, decide_eq_true_eq] at h3
      simp [generateComplete, clientRespond, jsTruthy, jsOr, h3]

/-- Witness for C1: the ready session with an `ImageProduced` outcome runs
the full cycle and ends in SUCCESS with the image stored. -/
theorem generate_cycle_witness :
    readySession.originalImage = some imgA ∧
      strTrim readySession.prompt ≠ "" ∧
      nonemptyPayload (EditOutcome.ImageProduced resUrl) = true ∧
      (generateStart readySession).2 = true ∧
      (generateComplete (clientRespond (EditOutcome.ImageProduced resUrl))
          (generateStart readySession).1).status = ProcessingState.SUCCESS ∧
      (generateComplete (clientRespond (EditOutcome.ImageProduced resUrl))
          (generateStart readySession).1).resultImage = some resUrl := by
  have h := generate_cycle readySession imgA (EditOutcome.ImageProduced resUrl)
    rfl (by decide) (by decide)
  refine ⟨rfl, by decide, by decide, h.1, ?_, ?_⟩
  · rw [h.2.2.2.2.2.2]
  · rw [h.2.2.2.2.2.2]

/-- Counterexample to C2: concretely, a response resolving after a reset is
not discarded — the session ends in SUCCESS with the late image stored,
instead of remaining Idle with nothing stored. -/
theorem stale_response_counterexample :
    (generateComplete (ClientResponse.resolved { imageUrl := some resUrl })
        (handleReset (generateStart readySession).1)).status =
      ProcessingState.SUCCESS ∧
      (generateComplete (ClientResponse.resolved { imageUrl := some resUrl })
          (handleReset (generateStart readySession).1)).resultImage =
        some resUrl := by
  decide

/-- C2 as amended: a client response that resolves after a reset is applied
to the post-reset state rather than discarded — the completion handler
unconditionally moves the session to SUCCESS or ERROR (never back to, or
remaining in, IDLE). -/
theorem stale_response_applies_after_reset (s : SessionState) (resp : ClientResponse) :
    ((generateComplete resp (handleReset s)).status = ProcessingState.SUCCESS ∨
      (generateComplete resp (handleReset s)).status = ProcessingState.ERROR) ∧
      (generateComplete resp (handleReset s)).status ≠ ProcessingState.IDLE := by
  cases resp with
  | resolved r =>
      by_cases h : jsTruthy r.imageUrl = true
      · refine ⟨Or.inl ?_, ?_⟩ <;> simp [generateComplete, h]
      · refine ⟨Or.inr ?_, ?_⟩ <;> simp [generateComplete, h]
  | thrown m =>
      refine ⟨Or.inr ?_, ?_⟩ <;> simp [generateComplete]

/-- Counterexample to C3: submitting a non-image file does not leave the
stored error message at its prior value — it is overwritten with the
validation message, i.e. the transient error is stored in the session
state. -/
theorem nonimage_stores_error_counterexample :
    (handleFileSelect textFile initialModel).session.errorMsg ≠
      initialModel.session.errorMsg ∧
      (handleFileSelect textFile initialModel).session.errorMsg =
        some "Please select a valid image file." := by
  decide

/-- C3 as amended: for a file whose declared content kind is not an image,
acquisition fails and the stored image, stored result, state enumeration,
and the whole effect ledger keep their prior values — but the error message
field is set to the validation message for display. -/
theorem nonimage_only_sets_error (file : RawFile) (m : AppModel)
    (h : strStartsWith file.type "image/" = false) :
    handleFileSelect file m =
      { m with
          session :=
            { m.session with errorMsg := some "Please select a valid image file." } } := by
  unfold handleFileSelect
  rw [if_neg]
  rw [h]
  simp

/-- Witness for C3 as amended: the concrete text file hits the failure path
and only the error message changes. -/
theorem nonimage_only_sets_error_witness :
    strStartsWith textFile.type "image/" = false ∧
      handleFileSelect textFile initialModel =
        { initialModel with
            session :=
              { initialModel.session with
                  errorMsg := some "Please select a valid image file." } } :=
  ⟨by decide, nonimage_only_sets_error textFile initialModel (by decide)⟩

/-- Counterexample to C4: from a LOADING session that still has an image and
a non-whitespace instruction, invoking generate is not ignored — the guard
passes and a second client submission is started. -/
theorem generate_during_loading_counterexample :
    (generateStart loadingSession).2 = true ∧
      generateStart loadingSession ≠ (loadingSession, false) := by
  decide

/-- C4 as amended: the single-in-flight rule is enforced only by the
presentation control — the generate button is disabled whenever the status
is LOADING — while the core handler itself checks only for an image and a
non-whitespace instruction and, given those, initiates a client call
regardless of the LOADING status. -/
theorem loading_guard_only_in_presentation (s : SessionState) :
    (s.status = ProcessingState.LOADING → generateButtonDisabled s = true) ∧
      (s.originalImage ≠ none → strTrim s.prompt ≠ "" →
        (generateStart s).2 = true) := by
  constructor
  · intro h
    unfold generateButtonDisabled
    rw [h]
    simp
  · intro h1 h2
    unfold generateStart
    rw [if_neg]
    rintro (hc | hc)
    · exact h1 hc
    · exact h2 hc

/-- Witness for C4 as amended: at the concrete LOADING session the button is
disabled, yet the handler itself still starts a call. -/
theorem loading_guard_only_in_presentation_witness :
    generateButtonDisabled loadingSession = true ∧
      (generateStart loadingSession).2 = true :=
  ⟨(loading_guard_only_in_presentation loadingSession).1 rfl,
    (loading_guard_only_in_presentation loadingSession).2 (by decide) (by decide)⟩

/-- Counterexample to C8: after a second image supersedes the first, and
after a reset, the first display handle (object URL 0) was never passed to a
revocation call — the revocation ledger is empty while the handle is still
allocated. -/
theorem handle_never_revoked_counterexample :
    (handleFileSelect fileB (handleFileSelect fileA initialModel)).revokedUrls = [] ∧
      0 ∈ (handleFileSelect fileB (handleFileSelect fileA initialModel)).allocatedUrls ∧
      (handleResetM (handleFileSelect fileA initialModel)).revokedUrls = [] := by
  decide

/-- C8 as amended: a new acquisition replaces the stored image and a reset
clears it, so the previous display handle is dropped from the session state,
but neither path revokes any object URL — the revocation ledger is unchanged
(the source never calls the revocation API) and every previously allocated
handle stays allocated. -/
theorem supersession_never_revokes (file : RawFile) (m : AppModel) :
    (handleFileSelect file m).revokedUrls = m.revokedUrls ∧
      (handleResetM m).revokedUrls = m.revokedUrls ∧
      (handleResetM m).session.originalImage = none ∧
      (∀ u, u ∈ m.allocatedUrls → u ∈ (handleFileSelect file m).allocatedUrls) := by
  refine ⟨?_, rfl, rfl, ?_⟩
  · unfold handleFileSelect
    split <;> rfl
  · intro u hu
    unfold handleFileSelect
    split
    · exact List.mem_cons_of_mem _ hu
    · exact hu

/-- Witness for C8 as amended: the handle allocated for the first file
survives the second acquisition unrevoked. -/
theorem supersession_never_revokes_witness :
    (handleFileSelect fileB (handleFileSelect fileA initialModel)).revokedUrls =
      (handleFileSelect fileA initialModel).revokedUrls ∧
      0 ∈ (handleFileSelect fileB (handleFileSelect fileA initialModel)).allocatedUrls :=
  ⟨(supersession_never_revokes fileB (handleFileSelect fileA initialModel)).1,
    (supersession_never_revokes fileB (handleFileSelect fileA initialModel)).2.2.2
      0 (by decide)⟩

/-- C10: a successful acquisition stores the new normalized image, clears
the stored result, clears the stored error message, and sets the state
enumeration back to IDLE. -/
theorem acquire_success_resets_outcome (file : RawFile) (m : AppModel)
    (h : strStartsWith file.type "image/" = true) :
    (handleFileSelect file m).session.originalImage =
        some { base64 := file.dataUrl, mimeType := file.type, url := m.nextUrl } ∧
      (handleFileSelect file m).session.resultImage = none ∧
      (handleFileSelect file m).session.status = ProcessingState.IDLE ∧
      (handleFileSelect file m).session.errorMsg = none := by
  unfold handleFileSelect
  rw [if_pos h]
  exact ⟨rfl, rfl, rfl, rfl⟩

/-- Witness for C10: acquiring the concrete PNG from an ERROR session wipes
the prior outcome. -/
theorem acquire_success_resets_outcome_witness :
    strStartsWith fileA.type "image/" = true ∧
      (handleFileSelect fileA initialModel).session.originalImage =
        some { base64 := fileA.dataUrl, mimeType := fileA.type, url := initialModel.nextUrl } ∧
      (handleFileSelect fileA initialModel).session.status = ProcessingState.IDLE :=
  ⟨by decide,
    (acquire_success_resets_outcome fileA initialModel (by decide)).1,
    (acquire_success_resets_outcome fileA initialModel (by decide)).2.2.1⟩

end CreateImage
